import Mathlib

/-!
Verification of the execution orchestrator of the code-execution server
(`server.js`).  Definitions are shallow embeddings of the corresponding
JavaScript functions; each definition names the source symbol it models.
-/

set_option maxHeartbeats 1000000

namespace CodeExec

/-! ## Language registry (`supportedLanguages` in server.js) -/

/-- The seven language tags of the `supportedLanguages` table. -/
inductive Lang
  | python
  | javascript
  | java
  | cpp
  | ruby
  | go
  | dart
deriving DecidableEq

/-- One entry of the `supportedLanguages` table. -/
structure LangSpec where
  image : String
  fileExtension : String
  command : List String
deriving DecidableEq

/-- The `supportedLanguages` table, verbatim from server.js. -/
def supportedLanguages : Lang → LangSpec
  | .python => ⟨"code-execution-python:latest", ".py", ["python", "script.py"]⟩
  | .javascript => ⟨"code-execution-javascript:latest", ".js", ["node", "script.js"]⟩
  | .java => ⟨"code-execution-java:latest", ".java",
      ["sh", "-c", "javac -d /tmp Main.java && java -cp /tmp Main"]⟩
  | .cpp => ⟨"code-execution-cpp:latest", ".cpp",
      ["sh", "-c", "g++ -o /tmp/program main.cpp && /tmp/program"]⟩
  | .ruby => ⟨"code-execution-ruby:latest", ".rb", ["ruby", "script.rb"]⟩
  | .go => ⟨"code-execution-go:latest", ".go", ["go", "run", "main.go"]⟩
  | .dart => ⟨"code-execution-dart:latest", ".dart", ["dart", "run", "main.dart"]⟩

/-- Key lookup `supportedLanguages[language]` on a request-supplied tag. -/
def parseLang (t : String) : Option Lang :=
  if t == "python" then some .python
  else if t == "javascript" then some .javascript
  else if t == "java" then some .java
  else if t == "cpp" then some .cpp
  else if t == "ruby" then some .ruby
  else if t == "go" then some .go
  else if t == "dart" then some .dart
  else none

/-- Source file name selection from `executeCode` / `executeCodeInteractive`. -/
def sourceFileName (l : Lang) : String :=
  match l with
  | .java => "Main.java"
  | .cpp => "main.cpp"
  | .go => "main.go"
  | .dart => "main.dart"
  | _ => "script" ++ (supportedLanguages l).fileExtension

/-- Per-language memory limit (`memoryLimit` expression in both executors):
Dart and Java get 256 MiB, every other language 100 MiB. -/
def memoryLimit (l : Lang) : Nat :=
  if l = Lang.dart then 256 * 1024 * 1024
  else if l = Lang.java then 256 * 1024 * 1024
  else 100 * 1024 * 1024

/-! ## Stdin detector (`detectInteractiveCode` in server.js)

The JS patterns are case-insensitive regexes built from word-bounded
literals, `\s*` gaps and literal dots/parentheses.  They are embedded as
explicit scans over the character list of the source.  JS `\w` is
`[A-Za-z0-9_]` and `\s` is approximated by the ASCII whitespace
characters. -/

/-- JS regex word character class `\w`. -/
def isWordChar (c : Char) : Bool := c.isAlphanum || c == '_'

/-- JS regex whitespace class `\s` (ASCII portion). -/
def jsSpace (c : Char) : Bool :=
  c == ' ' || c == '\t' || c == '\n' || c == '\r' || c == '\x0b' || c == '\x0c'

/-- Case-insensitive literal match of `lit` at position `i` of `s`
(the literals below are written lowercase). -/
def litAtCI (s : List Char) (i : Nat) (lit : List Char) : Bool :=
  ((s.drop i).take lit.length).map Char.toLower == lit

/-- Word boundary `\b` before a word character at position `i`. -/
def boundaryBefore (s : List Char) (i : Nat) : Bool :=
  i == 0 || !(isWordChar (s.getD (i - 1) ' '))

/-- Word boundary `\b` after a word character ending just before `j`. -/
def boundaryAfter (s : List Char) (j : Nat) : Bool :=
  !(isWordChar (s.getD j ' '))

/-- Match of a pattern `\b<lit>\b` anywhere in `s`. -/
def wordLit (s : List Char) (lit : String) : Bool :=
  (List.range (s.length + 1)).any fun i =>
    boundaryBefore s i && litAtCI s i lit.data && boundaryAfter s (i + lit.data.length)

/-- Match of a pattern `\b<lit>` (no trailing boundary) anywhere in `s`. -/
def leadLit (s : List Char) (lit : String) : Bool :=
  (List.range (s.length + 1)).any fun i =>
    boundaryBefore s i && litAtCI s i lit.data

/-- First position at or after `i` holding a non-`\s` character. -/
def skipSpaces (s : List Char) (i : Nat) : Nat :=
  i + ((s.drop i).takeWhile jsSpace).length

/-- The Python pattern `\binput\s*\(`. -/
def matchPythonInput (s : List Char) : Bool :=
  (List.range (s.length + 1)).any fun i =>
    boundaryBefore s i && litAtCI s i "input".data &&
      (s.getD (skipSpaces s (i + 5)) 'x' == '(')

/-- Embedding of `detectInteractiveCode(language, code)`. -/
def detectInteractiveCode (l : Lang) (code : String) : Bool :=
  let s := code.data
  match l with
  | .python => matchPythonInput s
  | .javascript => wordLit s "readline" || wordLit s "process.stdin"
  | .java => wordLit s "scanner" || leadLit s "system.console()" || wordLit s "bufferedreader"
  | .cpp => wordLit s "cin" || wordLit s "getline" || wordLit s "scanf"
  | .ruby => wordLit s "gets" || wordLit s "readline"
  | .go => wordLit s "scan" || wordLit s "reader.readstring" || wordLit s "reader.read"
  | .dart => wordLit s "readlinesync" || leadLit s "stdin.read"

/-! ## Batch executor configuration (`executeCode` in server.js)

The pure configuration decisions of `executeCode`: which files are
written and baked into the ephemeral image, which command runs, and the
container options passed to `docker.createContainer`. -/

/-- The shell-pipe command substituted by `executeCode` when
`hasInteractiveInput && input` holds. -/
def pipeCmd (l : Lang) : List String :=
  match l with
  | .java => ["sh", "-c", "cd /code && javac -d /tmp Main.java && cat input.txt | java -cp /tmp Main"]
  | .cpp => ["sh", "-c", "cd /code && g++ -o /tmp/program main.cpp && cat input.txt | /tmp/program"]
  | .go => ["sh", "-c", "cat /code/input.txt | go run /code/main.go"]
  | .ruby => ["sh", "-c", "cat /code/input.txt | ruby /code/script.rb"]
  | .python => ["sh", "-c", "cat /code/input.txt | python /code/script.py"]
  | .javascript => ["sh", "-c", "cat /code/input.txt | node /code/script.js"]
  | .dart => ["sh", "-c", "cat /code/input.txt | dart run /code/main.dart"]

/-- JS `cmd[0].includes('sh')`: substring containment. -/
def strIncludes (sub s : List Char) : Bool :=
  (List.range (s.length + 1)).any fun i => (s.drop i).take sub.length == sub

/-- Configuration computed by one batch `executeCode` call. -/
structure BatchConfig where
  fileName : String
  writesInputFile : Bool
  dockerfileInputLine : Bool
  buildFiles : List String
  cmd : List String
  memory : Nat
  memorySwap : Nat
  nanoCpus : Nat
  pidsLimit : Nat
  stopTimeout : Nat
  networkMode : String
  privileged : Bool
  securityOpt : List String
  capDrop : List String
  openStdin : Bool
  stdinOnce : Bool
  attachStdout : Bool
  attachStderr : Bool
  tty : Bool
  timeoutMs : Nat
deriving DecidableEq

/-- Shallow embedding of the configuration decisions of `executeCode`.
JS string truthiness (`if (input)`) is rendered as `input != ""`; the JS
expression assigned to `OpenStdin` is a falsy chain whose truthiness is
rendered as a `Bool`. -/
def batchConfig (l : Lang) (code input : String) : BatchConfig :=
  let det := detectInteractiveCode l code
  let hasInput := input != ""
  let cmd := if det && hasInput then pipeCmd l else (supportedLanguages l).command
  { fileName := sourceFileName l
    writesInputFile := hasInput
    dockerfileInputLine := hasInput
    buildFiles := ["Dockerfile", sourceFileName l] ++ (if hasInput then ["input.txt"] else [])
    cmd := cmd
    memory := memoryLimit l
    memorySwap := memoryLimit l
    nanoCpus := 1 * 1000000000
    pidsLimit := 50
    stopTimeout := 10
    networkMode := "none"
    privileged := false
    securityOpt := ["no-new-privileges"]
    capDrop := ["ALL"]
    openStdin := det && hasInput && !(strIncludes "sh".data (cmd.headD "").data)
    stdinOnce := true
    attachStdout := true
    attachStderr := true
    tty := false
    timeoutMs := if det then 15000 else 10000 }

/-- Configuration computed by one `executeCodeInteractive` call. -/
structure InterConfig where
  image : String
  cmd : List String
  memory : Nat
  memorySwap : Nat
  nanoCpus : Nat
  pidsLimit : Nat
  networkMode : String
  privileged : Bool
  securityOpt : List String
  capDrop : List String
  mountSource : String
  mountTarget : String
  openStdin : Bool
  stdinOnce : Bool
  attachStdin : Bool
  attachStdout : Bool
  attachStderr : Bool
  tty : Bool
  workingDir : String
  timeoutMs : Nat
deriving DecidableEq

/-- Shallow embedding of the container options of `executeCodeInteractive`. -/
def interConfig (l : Lang) (id : String) : InterConfig :=
  { image := (supportedLanguages l).image
    cmd := (supportedLanguages l).command
    memory := memoryLimit l
    memorySwap := memoryLimit l
    nanoCpus := 1 * 1000000000
    pidsLimit := 50
    networkMode := "none"
    privileged := false
    securityOpt := ["no-new-privileges"]
    capDrop := ["ALL"]
    mountSource := "code_execution_server_code-workdir"
    mountTarget := "/workdir"
    openStdin := true
    stdinOnce := false
    attachStdin := true
    attachStdout := true
    attachStderr := true
    tty := false
    workingDir := "/workdir/" ++ id
    timeoutMs := 300000 }

/-- Timeout callback body of both executors: the container is stopped
exactly when `containerInfo.State.Running` holds. -/
def timeoutStopsContainer (running : Bool) : Bool := running

/-! ## Batch log demultiplexer (`cleanDockerLogs` in server.js)

`cleanDockerLogs` walks the multiplexed log buffer: it skips 8 bytes of
header, then scans forward until it meets a byte equal to `0x01` or
`0x02` (forcing at least one byte into the line), appends the scanned
slice, and repeats from there.  The scan is rendered byte-for-byte,
including the operator precedence of its loop condition.  Both loops
advance the position by at least one per iteration, so a fuel of
`length + 1` never runs out. -/

/-- JS `buffer.slice(i, j)` on a byte list (clamped, empty when `j ≤ i`). -/
def jsSlice (b : List Nat) (i j : Nat) : List Nat := (b.drop i).take (j - i)

/-- The inner scan of `cleanDockerLogs`: starting from `j`, the first
index whose byte is `0x01` or `0x02`, or the end of the buffer. -/
def scanEndF : Nat → List Nat → Nat → Nat
  | 0, _, j => j
  | fuel + 1, b, j =>
    if j < b.length then
      if b.getD j 0 == 1 || b.getD j 0 == 2 then j else scanEndF fuel b (j + 1)
    else j

/-- The outer loop of `cleanDockerLogs`. -/
def cleanLoopF : Nat → List Nat → Nat → List Nat
  | 0, _, _ => []
  | fuel + 1, b, pos =>
    if pos < b.length then
      let p := pos + 8
      let e := scanEndF (b.length + 1) b (p + 1)
      jsSlice b p e ++ cleanLoopF fuel b e
    else []

/-- Embedding of `cleanDockerLogs(logs)` at the byte level (the JS code
decodes the concatenated bytes as UTF-8 at the end; the inputs used here
are ASCII, so byte concatenation and string concatenation agree). -/
def cleanDockerLogs (b : List Nat) : List Nat := cleanLoopF (b.length + 1) b 0

/-- Big-endian 32-bit encoding used by the engine frame header. -/
def be32 (n : Nat) : List Nat :=
  [n / 16777216 % 256, n / 65536 % 256, n / 256 % 256, n % 256]

/-- One well-formed engine frame: tag byte, three zero bytes, big-endian
payload length, then exactly that many payload bytes. -/
def encodeFrame (tag : Nat) (payload : List Nat) : List Nat :=
  tag :: 0 :: 0 :: 0 :: (be32 payload.length ++ payload)

/-- Concatenation of well-formed frames. -/
def encodeFrames (fs : List (Nat × List Nat)) : List Nat :=
  fs.foldr (fun f acc => encodeFrame f.1 f.2 ++ acc) []

/-- The payload bytes of a frame list in order: what a correct collect-mode
demultiplexer must output for the combined log blob. -/
def payloadBytes (fs : List (Nat × List Nat)) : List Nat :=
  fs.foldr (fun f acc => f.2 ++ acc) []

/-! ## Admission queue (`executionQueue` / `processQueue` in server.js)

`processQueue` dispatches one task when the queue is nonempty and
`currentExecutions < maxConcurrentExecutions`; the endpoint pushes then
calls `processQueue`, and every dispatched task decrements the counter
and calls `processQueue` again when it settles.  Interactive executions
(`io.on('connection')` → `execute-interactive`) call
`executeCodeInteractive` directly and never touch the queue or the
counter; the state tracks their number in `inter`. -/

/-- Orchestrator scheduling state: queued batch tasks, batch tasks
dispatched and not yet settled (`currentExecutions`), and running
interactive executions. -/
structure QState where
  qlen : Nat
  cur : Nat
  inter : Nat
deriving DecidableEq

/-- One `processQueue()` call: dispatch when the queue is nonempty and
`currentExecutions < max` (JS guard `queue.length === 0 || current >= max`). -/
def processQueue (max : Nat) (s : QState) : QState :=
  if s.qlen == 0 || decide (max ≤ s.cur) then s
  else { s with qlen := s.qlen - 1, cur := s.cur + 1 }

/-- Atomic events of the single-threaded server loop. -/
inductive QStep (max : Nat) : QState → QState → Prop
  | post (s : QState) :
      QStep max s (processQueue max { s with qlen := s.qlen + 1 })
  | settleBatch (s : QState) (h : 0 < s.cur) :
      QStep max s (processQueue max { s with cur := s.cur - 1 })
  | startInteractive (s : QState) :
      QStep max s { s with inter := s.inter + 1 }
  | finishInteractive (s : QState) (h : 0 < s.inter) :
      QStep max s { s with inter := s.inter - 1 }

/-- States reachable from the initial empty server state. -/
inductive QReachable (max : Nat) : QState → Prop
  | init : QReachable max ⟨0, 0, 0⟩
  | step {s t : QState} : QReachable max s → QStep max s t → QReachable max t

/-- Helper to package a `post` step whose target has been evaluated. -/
theorem qstep_post_eq {max : Nat} (s : QState) {t : QState}
    (h : processQueue max { s with qlen := s.qlen + 1 } = t) : QStep max s t :=
  h ▸ QStep.post s

/-! ## Interactive input routing (`inputHandler` in server.js) -/

/-- One message arriving on the caller channel; `data = none` models a
payload whose `data` field is not a string. -/
structure InMsg where
  executionId : String
  data : Option String
deriving DecidableEq

/-- Embedding of the `inputHandler` closure registered for an execution:
the value written to the container stdin stream, if any. -/
def inputHandler (eid : String) (m : InMsg) : Option String :=
  if m.executionId != eid then none
  else
    match m.data with
    | none => none
    | some s => if s.length == 0 then none else some (s ++ "\n")

/-- The sequence of stdin writes produced by a sequence of input
messages processed by the handler of execution `eid`. -/
def deliveredWrites (eid : String) (ms : List InMsg) : List String :=
  ms.filterMap (inputHandler eid)

/-- Deliveries as claim C3 words them: every message whose
`executionId` matches is written, with a newline appended. -/
def claimedWritesC3 (eid : String) (ms : List InMsg) : List String :=
  (ms.filter (fun m => m.executionId == eid)).map (fun m => m.data.getD "" ++ "\n")

/-- Acceptance predicate actually implemented by `inputHandler`: the id
matches and the data field is a nonempty string. -/
def acceptsInput (eid : String) (m : InMsg) : Bool :=
  m.executionId == eid &&
    (match m.data with
     | some s => s.length != 0
     | none => false)

/-! ## Resource cleanup (`executeCode` / `executeCodeInteractive`)

The final existence of each acquired resource as a function of which
driver operation fails.  `remove`/`rm` calls are modelled as succeeding
when reached (their failures are caught and logged in the source). -/

/-- Which batch driver operations succeed, in the order `executeCode`
performs them: image build, container create, start, `wait`, and the
`container.logs()` read that sits between `wait` and the removals. -/
structure BatchEnv where
  buildOk : Bool
  createOk : Bool
  startOk : Bool
  waitOk : Bool
  logsOk : Bool
deriving DecidableEq

/-- Final existence of the batch resources after `executeCode` settles. -/
structure ResState where
  workDirExists : Bool
  imageExists : Bool
  containerExists : Bool
deriving DecidableEq

/-- Resource trace of `executeCode`: the `finally` block always removes
`workDir`; `container.remove()` and image removal sit on the
straight-line success path after both `container.wait()` and
`container.logs()` succeed — every earlier throw, including a `logs()`
rejection after `wait` has resolved, skips them. -/
def batchFinal (e : BatchEnv) : ResState :=
  if !e.buildOk then ⟨false, false, false⟩
  else if !e.createOk then ⟨false, true, false⟩
  else if !e.startOk then ⟨false, true, true⟩
  else if !e.waitOk then ⟨false, true, true⟩
  else if !e.logsOk then ⟨false, true, true⟩
  else ⟨false, false, false⟩

/-- Which interactive driver operations succeed. -/
structure InterEnv where
  createOk : Bool
  attachOk : Bool
  startOk : Bool
  waitOk : Bool
deriving DecidableEq

/-- Final existence of the interactive resources. -/
structure InterResState where
  workDirExists : Bool
  containerExists : Bool
deriving DecidableEq

/-- Resource trace of `executeCodeInteractive`: the `finally` block ends
the stream and removes `workDir`; `container.remove()` is reached only
after a successful `container.wait()`. -/
def interFinal (e : InterEnv) : InterResState :=
  if !e.createOk then ⟨false, false⟩
  else if !e.attachOk then ⟨false, true⟩
  else if !e.startOk then ⟨false, true⟩
  else if !e.waitOk then ⟨false, true⟩
  else ⟨false, false⟩

/-! ## Interactive event trace
(`executeCodeInteractive` and the `execute-interactive` socket handler)

The ordered sequence of events emitted to the caller socket for one
interactive execution, as a function of which driver operations succeed
and which output chunks the demultiplexer delivers while the container
runs.  A thrown error propagates to the `execute-interactive` handler,
which emits `error` followed by `execution-complete {status:"error"}`. -/

/-- Events emitted to the caller socket.  `kind` is the `type` field of
an `output` payload (empty when absent); `hasId` records whether an
`execution-complete` payload carries `executionId`. -/
inductive SEvent
  | out (data : String) (kind : String)
  | start (id : String)
  | complete (status : String) (hasId : Bool)
  | errMsg
deriving DecidableEq

/-- Environment of one interactive run.  `prepOk` covers the
`fs.mkdir` and `fs.writeFile` calls that precede the starting notice. -/
structure IEnv where
  prepOk : Bool
  createOk : Bool
  attachOk : Bool
  startOk : Bool
  waitOk : Bool
  chunks : List (String × Bool)
  timedOut : Bool
  exitCode : Nat

/-- Events emitted by the catch branch of the `execute-interactive`
handler: `error {message}` then `execution-complete {status:"error"}`
(the latter payload has no `executionId`). -/
def failTail : List SEvent := [SEvent.errMsg, SEvent.complete "error" false]

/-- Output events produced by the demultiplexer sinks: stdout chunks are
emitted as `output {data}`, stderr chunks as `output {data, type:"stderr"}`. -/
def chunkEvents (cs : List (String × Bool)) : List SEvent :=
  cs.map fun c => SEvent.out c.1 (if c.2 then "stderr" else "")

/-- Event trace of `executeCodeInteractive(language, code, socket)`:
`fs.mkdir` and `fs.writeFile` run first, and their rejection reaches the
catch branch before anything was emitted; otherwise the starting notice
is emitted before container creation; `execution-start` is emitted after
a successful attach and before `container.start()`; container output
arrives while waiting; on timeout a notice with `type:"error"` is
emitted before the forced stop; the normal path ends with
`execution-complete {status, exitCode, executionId}`. -/
def interactiveTrace (env : IEnv) (id : String) : List SEvent :=
  if !env.prepOk then failTail
  else SEvent.out "🚀 Starting execution...\n\n" "" ::
    (if !env.createOk then failTail
     else if !env.attachOk then failTail
     else SEvent.start id ::
       (if !env.startOk then failTail
        else if !env.waitOk then chunkEvents env.chunks ++ failTail
        else chunkEvents env.chunks ++
          (if env.timedOut then [SEvent.out "\n⏱️ Execution timeout (5 minutes)\n" "error"] else []) ++
          [SEvent.complete (if env.exitCode == 0 then "success" else "error") true]))

/-- Recogniser for `output` events. -/
def isOutEvent : SEvent → Bool
  | .out _ _ => true
  | _ => false

/-- Recogniser for `execution-start` events. -/
def isStartEvent : SEvent → Bool
  | .start _ => true
  | _ => false

/-- Recogniser for `execution-complete` events. -/
def isCompleteEvent : SEvent → Bool
  | .complete _ _ => true
  | _ => false

/-- Number of `execution-start` events in a trace. -/
def startCount (t : List SEvent) : Nat := t.countP isStartEvent

/-- Number of `execution-complete` events in a trace. -/
def completeCount (t : List SEvent) : Nat := t.countP isCompleteEvent

/-- True when no `output` event occurs before the first
`execution-start` event (scanning from the head of the list). -/
def noOutBeforeFirstStart : List SEvent → Bool
  | [] => true
  | .start _ :: _ => true
  | .out _ _ :: _ => false
  | _ :: rest => noOutBeforeFirstStart rest

/-- True when the final event of the trace is an `execution-complete`. -/
def lastIsComplete (t : List SEvent) : Bool :=
  match t.reverse with
  | [] => false
  | e :: _ => isCompleteEvent e

/-! ## Batch HTTP endpoint (`app.post('/execute')` and `processQueue`) -/

/-- The body of a batch request; `none` models an absent field. -/
structure Req where
  language : Option String
  code : Option String
  input : Option String
deriving DecidableEq

/-- JS truthiness of an optional string field (`!language`): absent,
and the empty string, are falsy. -/
def jsTruthy : Option String → Bool
  | none => false
  | some s => s != ""

/-- Outcome of the `/execute` request handler before dispatch. -/
inductive EndpointResult
  | respond (status : Nat) (error : String)
  | enqueued
deriving DecidableEq

/-- Embedding of the `/execute` handler: `if (!language || !code)`
responds 400, otherwise the task is pushed onto `executionQueue`. -/
def executeEndpoint (r : Req) : EndpointResult :=
  if !(jsTruthy r.language) || !(jsTruthy r.code) then
    .respond 400 "Language and code are required"
  else .enqueued

/-- HTTP status finally produced for a dispatched task by `processQueue`:
`executeCode` throws on an unregistered language and the `.catch`
responds 500; otherwise the task resolves with a JSON result (200) or
rejects with 500 when the run fails. -/
def dispatchHttpStatus (r : Req) (runOk : Bool) : Nat :=
  match parseLang (r.language.getD "") with
  | none => 500
  | some _ => if runOk then 200 else 500

/-- Default value of `maxConcurrentExecutions`
(`process.env.MAX_CONCURRENT_EXECUTIONS || 5`). -/
def maxConcurrentDefault : Nat := 5

/-! ## Claim theorems -/

/-- Helper for C1: `processQueue` never pushes the in-flight batch
counter past the cap. -/
theorem processQueue_cur_le (max : Nat) (s : QState) (h : s.cur ≤ max) :
    (processQueue max s).cur ≤ max := by
  unfold processQueue
  split
  · exact h
  · next hq =>
    show s.cur + 1 ≤ max
    simp only [Bool.or_eq_true, beq_iff_eq, decide_eq_true_eq, not_or] at hq
    omega

/-- C5: every container created by either executor carries the mandatory
security profile: `Memory = MemorySwap =` the memory class of the
language (256 MiB for Java and Dart, 100 MiB otherwise),
`NanoCpus = 1e9`, `PidsLimit = 50`, `NetworkMode = "none"`,
`Privileged = false`, `SecurityOpt = ["no-new-privileges"]`,
`CapDrop = ["ALL"]`, and TTY disabled. -/
theorem c5_security_profile : ∀ (l : Lang) (code input id : String),
    (batchConfig l code input).memory = memoryLimit l ∧
    (batchConfig l code input).memorySwap = memoryLimit l ∧
    (batchConfig l code input).nanoCpus = 1000000000 ∧
    (batchConfig l code input).pidsLimit = 50 ∧
    (batchConfig l code input).networkMode = "none" ∧
    (batchConfig l code input).privileged = false ∧
    (batchConfig l code input).securityOpt = ["no-new-privileges"] ∧
    (batchConfig l code input).capDrop = ["ALL"] ∧
    (batchConfig l code input).tty = false ∧
    (interConfig l id).memory = memoryLimit l ∧
    (interConfig l id).memorySwap = memoryLimit l ∧
    (interConfig l id).nanoCpus = 1000000000 ∧
    (interConfig l id).pidsLimit = 50 ∧
    (interConfig l id).networkMode = "none" ∧
    (interConfig l id).privileged = false ∧
    (interConfig l id).securityOpt = ["no-new-privileges"] ∧
    (interConfig l id).capDrop = ["ALL"] ∧
    (interConfig l id).tty = false ∧
    memoryLimit l =
      (if l = Lang.java ∨ l = Lang.dart then 256 * 1024 * 1024 else 100 * 1024 * 1024) := by
  intro l code input id
  refine ⟨rfl, rfl, rfl, rfl, rfl, rfl, rfl, rfl, rfl, rfl, rfl, rfl, rfl, rfl, rfl, rfl,
    rfl, rfl, ?_⟩
  cases l <;> decide

/-- C8: the batch deadline is 10 s, or 15 s when the source matches the
stdin detector of the language; the interactive deadline is 300 s; the
timeout callback stops the container exactly when it is still running.
Durations are in milliseconds as in the `setTimeout` calls. -/
theorem c8_deadlines : ∀ (l : Lang) (code input id : String) (running : Bool),
    (batchConfig l code input).timeoutMs =
      (if detectInteractiveCode l code then 15000 else 10000) ∧
    (interConfig l id).timeoutMs = 300000 ∧
    timeoutStopsContainer running = running :=
  fun _ _ _ _ _ => ⟨rfl, rfl, rfl⟩

/-- C9: a batch request whose `input` field is the empty string behaves
exactly like one with no input: no `input.txt` is written, the build
context and Dockerfile exclude it, the plain registry command runs, and
`OpenStdin` is falsy — for every source, including ones the stdin
detector matches. -/
theorem c9_empty_input : ∀ (l : Lang) (code : String),
    (batchConfig l code "").writesInputFile = false ∧
    (batchConfig l code "").dockerfileInputLine = false ∧
    (batchConfig l code "").buildFiles = ["Dockerfile", sourceFileName l] ∧
    (batchConfig l code "").cmd = (supportedLanguages l).command ∧
    (batchConfig l code "").openStdin = false := by
  intro l code
  refine ⟨rfl, rfl, rfl, ?_, ?_⟩
  · simp [batchConfig]
  · simp [batchConfig]

/-- C10: the batch endpoint responds 400 with the message
`Language and code are required` when `language` or `code` is the empty
string, exactly as when the field is missing. -/
theorem c10_empty_is_missing : ∀ (r : Req),
    (r.language = none ∨ r.language = some "" ∨ r.code = none ∨ r.code = some "") →
    executeEndpoint r = .respond 400 "Language and code are required" := by
  intro r h
  rcases h with h | h | h | h <;> simp [executeEndpoint, jsTruthy, h]

/-- Witness for C10 at a concrete request with an empty language field. -/
theorem c10_witness :
    executeEndpoint ⟨some "", some "print(1)", none⟩ =
      .respond 400 "Language and code are required" :=
  c10_empty_is_missing ⟨some "", some "print(1)", none⟩ (Or.inr (Or.inl rfl))

/-- C1 counterexample: with the default cap of 5, a state with five
in-flight batch executions and one interactive execution is reachable —
six sandboxes build or run at once, because `execute-interactive`
dispatches without touching `currentExecutions` or the queue.  The bound
of the claim fails on batch and interactive taken together. -/
theorem c1_counterexample :
    QReachable maxConcurrentDefault ⟨0, 5, 1⟩ ∧
      maxConcurrentDefault < 5 + 1 := by
  refine ⟨?_, by decide⟩
  have h0 : QReachable maxConcurrentDefault ⟨0, 0, 0⟩ := QReachable.init
  have h1 : QReachable maxConcurrentDefault ⟨0, 1, 0⟩ :=
    h0.step (qstep_post_eq _ (by decide))
  have h2 : QReachable maxConcurrentDefault ⟨0, 2, 0⟩ :=
    h1.step (qstep_post_eq _ (by decide))
  have h3 : QReachable maxConcurrentDefault ⟨0, 3, 0⟩ :=
    h2.step (qstep_post_eq _ (by decide))
  have h4 : QReachable maxConcurrentDefault ⟨0, 4, 0⟩ :=
    h3.step (qstep_post_eq _ (by decide))
  have h5 : QReachable maxConcurrentDefault ⟨0, 5, 0⟩ :=
    h4.step (qstep_post_eq _ (by decide))
  exact h5.step (QStep.startInteractive _)

/-- C1 amended: the in-flight batch counter never exceeds the admission
cap in any reachable state — `processQueue` dispatches only while
`currentExecutions < max`.  Interactive executions bypass the queue and
are not covered by the bound. -/
theorem c1_batch_bound : ∀ (max : Nat) (s : QState),
    QReachable max s → s.cur ≤ max := by
  intro max s h
  induction h with
  | init => exact Nat.zero_le max
  | step hr hs ih =>
    cases hs with
    | post => exact processQueue_cur_le _ _ ih
    | settleBatch h =>
      exact processQueue_cur_le _ _ (Nat.le_trans (Nat.sub_le _ _) ih)
    | startInteractive => exact ih
    | finishInteractive h => exact ih

/-- Witness for C1 at the reachable state after one dispatched request. -/
theorem c1_witness : (⟨0, 1, 0⟩ : QState).cur ≤ maxConcurrentDefault :=
  c1_batch_bound maxConcurrentDefault ⟨0, 1, 0⟩
    (QReachable.step QReachable.init (qstep_post_eq _ (by decide)))

/-- C2: `cleanDockerLogs` does not consume `length` payload bytes per
frame: on the single well-formed frame `(stdout, [65, 1, 66])` it stops
at the payload byte `0x01` and returns `[65]` instead of the frame
payload `[65, 1, 66]`, so the demultiplexer round-trip fails. -/
theorem c2_demux_bug :
    cleanDockerLogs (encodeFrames [(1, [65, 1, 66])]) = [65] ∧
    payloadBytes [(1, [65, 1, 66])] = [65, 1, 66] := by
  refine ⟨by decide, by decide⟩

/-- C3 counterexample: an input message that carries the id of the
running execution but an empty-string `data` field is dropped by
`inputHandler`, while the claim requires it to be written (with a
newline appended) whenever the id matches. -/
theorem c3_counterexample :
    deliveredWrites "e0" [⟨"e0", some ""⟩] = [] ∧
    claimedWritesC3 "e0" [⟨"e0", some ""⟩] = ["\n"] := by
  refine ⟨rfl, rfl⟩

/-- C3 amended: a message is written to the stdin stream of execution
`eid` iff its `executionId` equals `eid` and its `data` field is a
nonempty string; accepted messages are written in arrival order with a
single newline appended, and all other messages are silently dropped. -/
theorem c3_input_routing : ∀ (eid : String) (ms : List InMsg),
    deliveredWrites eid ms =
      (ms.filter (acceptsInput eid)).map (fun m => m.data.getD "" ++ "\n") := by
  intro eid ms
  induction ms with
  | nil => rfl
  | cons m rest ih =>
    cases hd : m.data with
    | none =>
      have h1 : inputHandler eid m = none := by
        simp [inputHandler, hd, ite_self]
      have h2 : acceptsInput eid m = false := by
        simp [acceptsInput, hd]
      simp [deliveredWrites, List.filterMap_cons, List.filter_cons, h1, h2] at *
      exact ih
    | some s =>
      by_cases hid : (m.executionId == eid) = true
      · by_cases hs : (s.length == 0) = true
        · have h1 : inputHandler eid m = none := by
            simp [inputHandler, bne, hd, hid, hs]
          have h2 : acceptsInput eid m = false := by
            simp only [acceptsInput, hd, hid, bne, Bool.true_and]
            simpa using hs
          simp [deliveredWrites, List.filterMap_cons, List.filter_cons, h1, h2] at *
          exact ih
        · have h1 : inputHandler eid m = some (s ++ "\n") := by
            simp [inputHandler, bne, hd, hid, hs]
          have h2 : acceptsInput eid m = true := by
            simp only [acceptsInput, hd, hid, bne, Bool.true_and]
            simpa using hs
          simp [deliveredWrites, List.filterMap_cons, List.filter_cons, h1, h2, hd] at *
          exact ih
      · have h1 : inputHandler eid m = none := by
          simp [inputHandler, bne, hid]
        have h2 : acceptsInput eid m = false := by
          simp [acceptsInput, hid]
        simp [deliveredWrites, List.filterMap_cons, List.filter_cons, h1, h2] at *
        exact ih

/-- C4 counterexample: when the container is created but `start` fails,
`executeCode` rethrows after removing only the work directory — the
container and the ephemeral image still exist after the execution ends;
the same leak occurs when `container.logs()` rejects after `wait` has
already resolved. -/
theorem c4_counterexample :
    batchFinal ⟨true, true, false, true, true⟩ =
      { workDirExists := false, imageExists := true, containerExists := true } ∧
    (batchFinal ⟨true, true, false, true, true⟩).containerExists = true ∧
    (batchFinal ⟨true, true, false, true, true⟩).imageExists = true ∧
    batchFinal ⟨true, true, true, true, false⟩ =
      { workDirExists := false, imageExists := true, containerExists := true } := by
  refine ⟨rfl, rfl, rfl, rfl⟩

/-- C4 amended: on every exit path the work directory is removed (the
`finally` blocks); the container and the ephemeral image are removed
exactly on the straight-line path where build, create, start, `wait`
and `logs` all succeed (which includes the deadline-stop case, where
`wait` still resolves); on any path that throws after their creation —
create, start or wait failure, or a `logs()` rejection after `wait`
resolved — container and image are leaked. -/
theorem c4_cleanup : ∀ (e : BatchEnv) (i : InterEnv),
    (batchFinal e).workDirExists = false ∧
    (interFinal i).workDirExists = false ∧
    batchFinal ⟨true, true, true, true, true⟩ = ⟨false, false, false⟩ ∧
    interFinal ⟨true, true, true, true⟩ = ⟨false, false⟩ := by
  intro e i
  refine ⟨?_, ?_, rfl, rfl⟩
  · obtain ⟨a, b, c, d, g⟩ := e
    cases a <;> cases b <;> cases c <;> cases d <;> cases g <;> rfl
  · obtain ⟨a, b, c, d⟩ := i
    cases a <;> cases b <;> cases c <;> cases d <;> rfl

/-- C6 counterexample: a request with an unregistered language passes
the endpoint validation and is enqueued; its dispatch responds 500, not
400.  A source of 50001 code points is likewise enqueued — no 413 size
check exists. -/
theorem c6_counterexample :
    executeEndpoint ⟨some "klingon", some "print(1)", none⟩ = .enqueued ∧
    dispatchHttpStatus ⟨some "klingon", some "print(1)", none⟩ true = 500 ∧
    executeEndpoint ⟨some "python", some (String.mk (List.replicate 50001 'a')), none⟩ =
      .enqueued ∧
    (String.mk (List.replicate 50001 'a')).length = 50001 := by
  refine ⟨rfl, rfl, ?_, ?_⟩
  · have hne : (String.mk (List.replicate 50001 'a') == "") = false := by decide
    simp [executeEndpoint, jsTruthy, hne]
  · show (List.replicate 50001 'a').length = 50001
    rw [List.length_replicate]

/-- C6 amended: the endpoint responds 400 with
`Language and code are required` exactly when `language` or `code` is
missing or empty, and otherwise enqueues the request unconditionally; a
request whose language is not in the registry fails with 500 when
dispatched; no size limit is checked, so no 413 is ever produced. -/
theorem c6_validation : ∀ (r : Req) (ok : Bool),
    ((jsTruthy r.language = false ∨ jsTruthy r.code = false) →
      executeEndpoint r = .respond 400 "Language and code are required") ∧
    (jsTruthy r.language = true → jsTruthy r.code = true →
      executeEndpoint r = .enqueued) ∧
    (parseLang (r.language.getD "") = none → dispatchHttpStatus r ok = 500) := by
  intro r ok
  refine ⟨?_, ?_, ?_⟩
  · intro h
    rcases h with h | h <;> simp [executeEndpoint, h]
  · intro h1 h2
    simp [executeEndpoint, h1, h2]
  · intro h
    simp [dispatchHttpStatus, h]

/-- Witness for C6 at a concrete request with an unregistered language
and an empty code field. -/
theorem c6_witness :
    executeEndpoint ⟨some "klingon", some "", none⟩ =
      .respond 400 "Language and code are required" ∧
    dispatchHttpStatus ⟨some "klingon", some "", none⟩ true = 500 := by
  refine ⟨(c6_validation ⟨some "klingon", some "", none⟩ true).1 (Or.inr rfl),
    (c6_validation ⟨some "klingon", some "", none⟩ true).2.2 rfl⟩

/-- Helper for C7: demultiplexer output chunks contain no
`execution-start` events. -/
theorem chunkEvents_no_start (cs : List (String × Bool)) :
    (chunkEvents cs).countP isStartEvent = 0 := by
  induction cs with
  | nil => rfl
  | cons c rest ih => simp [chunkEvents, List.countP_cons, isStartEvent, ih] at *

/-- Helper for C7: demultiplexer output chunks contain no
`execution-complete` events. -/
theorem chunkEvents_no_complete (cs : List (String × Bool)) :
    (chunkEvents cs).countP isCompleteEvent = 0 := by
  induction cs with
  | nil => rfl
  | cons c rest ih => simp [chunkEvents, List.countP_cons, isCompleteEvent, ih] at *

/-- Helper for C7: a trace ending in a given event ends in a complete
exactly when that event is one. -/
theorem lastIsComplete_concat (l : List SEvent) (e : SEvent) :
    lastIsComplete (l ++ [e]) = isCompleteEvent e := by
  simp [lastIsComplete, List.reverse_append]

/-- C7 counterexample: on a successful interactive run the fixed
starting notice is emitted as an `output` event before
`execution-start`, and on a run whose container creation fails no
`execution-start` is emitted at all although one `execution-complete`
is. -/
theorem c7_counterexample :
    noOutBeforeFirstStart
      (interactiveTrace ⟨true, true, true, true, true, [("hi\n", false)], false, 0⟩ "e1") =
        false ∧
    startCount (interactiveTrace ⟨true, false, true, true, true, [], false, 0⟩ "e1") = 0 ∧
    completeCount (interactiveTrace ⟨true, false, true, true, true, [], false, 0⟩ "e1") = 1 := by
  refine ⟨rfl, rfl, rfl⟩

/-- C7 amended: every interactive execution emits exactly one
`execution-complete`, as its final event; it emits exactly one
`execution-start` when preparation (work-dir creation and source
write), container creation and attach all succeed and none otherwise;
when preparation succeeds the first event is the fixed starting
`output` notice (when it fails, only `error` and `execution-complete`
are emitted), and apart from that notice no `output` precedes
`execution-start`. -/
theorem c7_events : ∀ (env : IEnv) (id : String),
    completeCount (interactiveTrace env id) = 1 ∧
    startCount (interactiveTrace env id) =
      (if env.prepOk && env.createOk && env.attachOk then 1 else 0) ∧
    lastIsComplete (interactiveTrace env id) = true ∧
    (interactiveTrace env id).head? =
      (if env.prepOk then some (SEvent.out "🚀 Starting execution...\n\n" "")
       else some SEvent.errMsg) ∧
    noOutBeforeFirstStart ((interactiveTrace env id).drop 1) = true := by
  intro env id
  obtain ⟨p, c, a, s, w, chunks, t, ec⟩ := env
  cases p with
  | false => exact ⟨rfl, rfl, rfl, rfl, rfl⟩
  | true =>
    cases c with
    | false => exact ⟨rfl, rfl, rfl, rfl, rfl⟩
    | true =>
      cases a with
      | false => exact ⟨rfl, rfl, rfl, rfl, rfl⟩
      | true =>
        cases s with
        | false => exact ⟨rfl, rfl, rfl, rfl, rfl⟩
        | true =>
          cases w with
          | false =>
            refine ⟨?_, ?_, ?_, rfl, rfl⟩
            · simp [interactiveTrace, completeCount, failTail, List.countP_cons,
                List.countP_append, chunkEvents_no_complete, isCompleteEvent, isStartEvent]
            · simp [interactiveTrace, startCount, failTail, List.countP_cons,
                List.countP_append, chunkEvents_no_start, isCompleteEvent, isStartEvent]
            · have e1 : interactiveTrace ⟨true, true, true, true, false, chunks, t, ec⟩ id =
                  (SEvent.out "🚀 Starting execution...\n\n" "" :: SEvent.start id ::
                    (chunkEvents chunks ++ [SEvent.errMsg])) ++
                    [SEvent.complete "error" false] := by
                simp [interactiveTrace, failTail]
              rw [e1, lastIsComplete_concat]
              rfl
          | true =>
            cases t with
            | false =>
              refine ⟨?_, ?_, ?_, rfl, rfl⟩
              · simp [interactiveTrace, completeCount, List.countP_cons,
                  List.countP_append, chunkEvents_no_complete, isCompleteEvent, isStartEvent]
              · simp [interactiveTrace, startCount, List.countP_cons,
                  List.countP_append, chunkEvents_no_start, isCompleteEvent, isStartEvent]
              · have e1 : interactiveTrace ⟨true, true, true, true, true, chunks, false, ec⟩ id =
                    (SEvent.out "🚀 Starting execution...\n\n" "" :: SEvent.start id ::
                      chunkEvents chunks) ++
                      [SEvent.complete (if ec == 0 then "success" else "error") true] := by
                  simp [interactiveTrace]
                rw [e1, lastIsComplete_concat]
                rfl
            | true =>
              refine ⟨?_, ?_, ?_, rfl, rfl⟩
              · simp [interactiveTrace, completeCount, List.countP_cons,
                  List.countP_append, chunkEvents_no_complete, isCompleteEvent, isStartEvent]
              · simp [interactiveTrace, startCount, List.countP_cons,
                  List.countP_append, chunkEvents_no_start, isCompleteEvent, isStartEvent]
              · have e1 : interactiveTrace ⟨true, true, true, true, true, chunks, true, ec⟩ id =
                    (SEvent.out "🚀 Starting execution...\n\n" "" :: SEvent.start id ::
                      (chunkEvents chunks ++
                        [SEvent.out "\n⏱️ Execution timeout (5 minutes)\n" "error"])) ++
                      [SEvent.complete (if ec == 0 then "success" else "error") true] := by
                  simp [interactiveTrace]
                rw [e1, lastIsComplete_concat]
                rfl

end CodeExec
